import Mathlib

/-!
Shallow embedding of the Cratey-Validator service (eScienceLab/Cratey-Validator).

The embedding follows the Python sources:
  * `src/app/services/validation_service.py`  (dispatch service)
  * `src/app/tasks/validation_tasks.py`       (worker tasks and validation adapters)
  * `src/app/utils/minio_utils.py`            (object-store adapter)
  * `src/app/utils/config.py`                 (InvalidAPIUsage)

External collaborators (the MinIO client, the `rocrate_validator` engine, the
Celery broker, the webhook sender) are modelled as explicit oracle parameters:
each oracle returns `Except PyExc _`, standing for "returns a value or raises a
Python exception".  Python's `json.loads` (used by the service layer and the
store adapter) is modelled by an executable JSON parser below.
-/

/-- Python-level exceptions relevant to this code base.  Constructors model the
exception classes that appear in the sources: `minio.S3Error`, `ValueError`,
`json.decoder.JSONDecodeError` (a subclass of `ValueError`), `TypeError`,
`app.utils.config.InvalidAPIUsage` (message + HTTP status hint) and a generic
catch-all for any other `Exception` subclass. -/
inductive PyExc where
  | s3Error (msg : String)
  | valueError (msg : String)
  | jsonDecodeError (msg : String)
  | typeError (msg : String)
  | invalidAPIUsage (message : String) (statusCode : Nat)
  | otherError (msg : String)
deriving DecidableEq

/-- Python `str(e)` on an exception: its message. -/
def PyExc.str : PyExc → String
  | .s3Error m => m
  | .valueError m => m
  | .jsonDecodeError m => m
  | .typeError m => m
  | .invalidAPIUsage m _ => m
  | .otherError m => m

/-- A parsed JSON value, as produced by Python `json.loads`.  Number lexemes are
kept as raw text (their numeric value is never inspected by this code base).
Object entries keep insertion order, with later duplicate keys overwriting
earlier ones, as Python dicts do. -/
inductive JsonVal where
  | null
  | bool (b : Bool)
  | num (lexeme : String)
  | str (s : String)
  | arr (items : List JsonVal)
  | obj (entries : List (String × JsonVal))

/-- Python dict assignment semantics for object construction: a repeated key
overwrites the earlier value in place, otherwise the entry is appended. -/
def objInsert (entries : List (String × JsonVal)) (k : String) (v : JsonVal) :
    List (String × JsonVal) :=
  match entries with
  | [] => [(k, v)]
  | (k0, v0) :: rest =>
    if k0 = k then (k0, v) :: rest else (k0, v0) :: objInsert rest k v

/-- JSON insignificant whitespace (the characters `json.decoder` skips). -/
def isJsonWs (c : Char) : Bool :=
  c = ' ' || c = '\t' || c = '\n' || c = '\r'

/-- Drop leading JSON whitespace. -/
def skipWs : List Char → List Char
  | [] => []
  | c :: cs => if isJsonWs c then skipWs cs else c :: cs

/-- Value of one hexadecimal digit, if any. -/
def hexDigitVal (c : Char) : Option Nat :=
  if '0' ≤ c ∧ c ≤ '9' then some (c.toNat - '0'.toNat)
  else if 'a' ≤ c ∧ c ≤ 'f' then some (c.toNat - 'a'.toNat + 10)
  else if 'A' ≤ c ∧ c ≤ 'F' then some (c.toNat - 'A'.toNat + 10)
  else none

/-- Body of a JSON string literal (after the opening quote), in Python strict
mode: raw control characters are rejected, only the RFC escapes are allowed. -/
def parseStringBody : Nat → List Char → List Char → Except String (String × List Char)
  | 0, _, _ => .error "Unterminated string (fuel exhausted)"
  | _ + 1, _, [] => .error "Unterminated string"
  | fuel + 1, acc, c :: cs =>
    if c = '"' then .ok (String.mk acc.reverse, cs)
    else if c = '\\' then
      match cs with
      | [] => .error "Unterminated string"
      | e :: cs2 =>
        if e = '"' then parseStringBody fuel ('"' :: acc) cs2
        else if e = '\\' then parseStringBody fuel ('\\' :: acc) cs2
        else if e = '/' then parseStringBody fuel ('/' :: acc) cs2
        else if e = 'b' then parseStringBody fuel ('\x08' :: acc) cs2
        else if e = 'f' then parseStringBody fuel ('\x0c' :: acc) cs2
        else if e = 'n' then parseStringBody fuel ('\n' :: acc) cs2
        else if e = 'r' then parseStringBody fuel ('\x0d' :: acc) cs2
        else if e = 't' then parseStringBody fuel ('\t' :: acc) cs2
        else if e = 'u' then
          match cs2 with
          | h1 :: h2 :: h3 :: h4 :: cs3 =>
            match hexDigitVal h1, hexDigitVal h2, hexDigitVal h3, hexDigitVal h4 with
            | some a, some b, some c3, some d =>
              parseStringBody fuel (Char.ofNat (((a * 16 + b) * 16 + c3) * 16 + d) :: acc) cs3
            | _, _, _, _ => .error "Invalid uXXXX escape"
          | _ => .error "Invalid uXXXX escape"
        else .error "Invalid escape"
    else if c.toNat < 32 then .error "Invalid control character"
    else parseStringBody fuel (c :: acc) cs

/-- Longest leading run of decimal digits. -/
def takeDigits : List Char → List Char × List Char
  | [] => ([], [])
  | c :: cs =>
    if c.isDigit then
      let (d, r) := takeDigits cs
      (c :: d, r)
    else ([], c :: cs)

/-- Integer part of a JSON number: `0` alone, or a nonzero digit followed by
digits (the `(?:0|[1-9]\d*)` part of the scanner regex). -/
def parseIntPart : List Char → Option (List Char × List Char)
  | [] => none
  | c :: cs =>
    if c = '0' then some ([c], cs)
    else if c.isDigit then
      let (d, r) := takeDigits cs
      some (c :: d, r)
    else none

/-- JSON number lexeme, following the scanner regex
`(-?(?:0|[1-9]\d*))(\.\d+)?([eE][-+]?\d+)?`: a partial fraction or exponent is
left unconsumed, exactly as the regex backs off. -/
def parseNumber (cs : List Char) : Option (String × List Char) :=
  let (neg, cs1) : List Char × List Char :=
    match cs with
    | '-' :: rest => (['-'], rest)
    | _ => ([], cs)
  match parseIntPart cs1 with
  | none => none
  | some (ip, cs2) =>
    let (frac, cs3) : List Char × List Char :=
      match cs2 with
      | '.' :: rest =>
        let (d, r) := takeDigits rest
        if d = [] then ([], cs2) else ('.' :: d, r)
      | _ => ([], cs2)
    let (ex, cs4) : List Char × List Char :=
      match cs3 with
      | e :: rest =>
        if e = 'e' ∨ e = 'E' then
          let (sgn, rest2) : List Char × List Char :=
            match rest with
            | s :: r2 => if s = '+' ∨ s = '-' then ([s], r2) else ([], s :: r2)
            | [] => ([], [])
          let (d, r) := takeDigits rest2
          if d = [] then ([], cs3) else (e :: (sgn ++ d), r)
        else ([], cs3)
      | [] => ([], cs3)
    some (String.mk (neg ++ ip ++ frac ++ ex), cs4)

/-- Match a literal keyword and return the remaining input. -/
def chopKeyword : List Char → List Char → Option (List Char)
  | [], rest => some rest
  | _ :: _, [] => none
  | p :: ps, c :: rest => if c = p then chopKeyword ps rest else none

mutual

/-- One JSON value at the head of the input (no leading whitespace), as the
Python scanner reads it.  Fuel bounds the recursion depth; every recursive call
consumes at least one input character, so `length + 1` fuel never runs out. -/
def parseVal : Nat → List Char → Except String (JsonVal × List Char)
  | 0, _ => .error "Expecting value (fuel exhausted)"
  | fuel + 1, cs =>
    match cs with
    | [] => .error "Expecting value"
    | c :: rest =>
      if c = '\x7b' then
        match skipWs rest with
        | '\x7d' :: rest2 => .ok (.obj [], rest2)
        | rest1 => parseObjEntries fuel [] rest1
      else if c = '[' then
        match skipWs rest with
        | ']' :: rest2 => .ok (.arr [], rest2)
        | rest1 => parseArrItems fuel [] rest1
      else if c = '"' then
        match parseStringBody (rest.length + 1) [] rest with
        | .ok (s, r) => .ok (.str s, r)
        | .error e => .error e
      else
        match chopKeyword "null".data cs with
        | some r => .ok (.null, r)
        | none =>
        match chopKeyword "true".data cs with
        | some r => .ok (.bool true, r)
        | none =>
        match chopKeyword "false".data cs with
        | some r => .ok (.bool false, r)
        | none =>
        match chopKeyword "NaN".data cs with
        | some r => .ok (.num "NaN", r)
        | none =>
        match chopKeyword "Infinity".data cs with
        | some r => .ok (.num "Infinity", r)
        | none =>
        match chopKeyword "-Infinity".data cs with
        | some r => .ok (.num "-Infinity", r)
        | none =>
        match parseNumber cs with
        | some (lex, r) => .ok (.num lex, r)
        | none => .error "Expecting value"

/-- Elements of a non-empty JSON array after the opening bracket. -/
def parseArrItems : Nat → List JsonVal → List Char → Except String (JsonVal × List Char)
  | 0, _, _ => .error "Expecting value (fuel exhausted)"
  | fuel + 1, acc, cs =>
    match parseVal fuel (skipWs cs) with
    | .error e => .error e
    | .ok (v, rest) =>
      match skipWs rest with
      | ',' :: rest2 => parseArrItems fuel (v :: acc) rest2
      | ']' :: rest2 => .ok (.arr (v :: acc).reverse, rest2)
      | _ => .error "Expecting comma delimiter"

/-- Entries of a non-empty JSON object after the opening brace. -/
def parseObjEntries : Nat → List (String × JsonVal) → List Char →
    Except String (JsonVal × List Char)
  | 0, _, _ => .error "Expecting value (fuel exhausted)"
  | fuel + 1, acc, cs =>
    match skipWs cs with
    | '"' :: rest =>
      match parseStringBody (rest.length + 1) [] rest with
      | .error e => .error e
      | .ok (key, rest1) =>
        match skipWs rest1 with
        | ':' :: rest2 =>
          match parseVal fuel (skipWs rest2) with
          | .error e => .error e
          | .ok (v, rest3) =>
            match skipWs rest3 with
            | ',' :: rest4 => parseObjEntries fuel (objInsert acc key v) rest4
            | '\x7d' :: rest4 => .ok (.obj (objInsert acc key v), rest4)
            | _ => .error "Expecting comma delimiter"
        | _ => .error "Expecting colon delimiter"
    | _ => .error "Expecting property name enclosed in double quotes"

end

/-- Model of Python `json.loads`: parse one JSON document, allowing only
surrounding whitespace; anything left over is an error (Extra data). -/
def json_loads (s : String) : Except String JsonVal :=
  let cs := skipWs s.data
  match parseVal (cs.length + 1) cs with
  | .error e => .error e
  | .ok (v, rest) => if skipWs rest = [] then .ok v else .error "Extra data"

/-- Python `len()` on a parsed JSON value: defined for dicts, lists and
strings; raises `TypeError` on `None`, booleans and numbers. -/
def pyLen : JsonVal → Except PyExc Nat
  | .obj entries => .ok entries.length
  | .arr items => .ok items.length
  | .str s => .ok s.length
  | .null => .error (.typeError "object of type NoneType has no len()")
  | .bool _ => .error (.typeError "object of type bool has no len()")
  | .num _ => .error (.typeError "object of type int or float has no len()")

/-- Whether a parsed JSON value supports `len()` (dict, list or str). -/
def JsonVal.sized : JsonVal → Bool
  | .obj _ => true
  | .arr _ => true
  | .str _ => true
  | _ => false

/-- Python truthiness of an optional string argument: `None` and the empty
string are falsy. -/
def pyTruthy : Option String → Bool
  | none => false
  | some s => !(s == "")

/-- The JSON body of a Flask response, as built by the service layer: either
`jsonify(error=...)`, `jsonify(message=...)`, or `jsonify(result=...)` where
the result is the by-metadata task's return value (a string, see
`process_validation_task_by_metadata`). -/
inductive Resp where
  | errorMsg (msg : String)
  | message (msg : String)
  | result (value : String)
deriving DecidableEq

/-- Observable outcome of `queue_ro_crate_metadata_validation_task`
(`validation_service.py`): the returned `(response, status)` pair or the
exception that escaped, whether the Celery task was enqueued, and whether the
caller blocked on `result.get()`. -/
structure MetaQueueOut where
  outcome : Except PyExc (Resp × Nat)
  enqueued : Bool
  waited : Bool

/-- Model of `queue_ro_crate_metadata_validation_task`
(`validation_service.py` lines 59-99).  `delayOutcome` is the oracle for
`process_validation_task_by_metadata.delay(...)`: on success it carries the
task's own return value, which is what `result.get()` yields (the by-metadata
task always returns a string from its `finally` clause); raising models a
broker failure and is caught by the surrounding `try`, giving a 500.

Flow, as in the source: `if not crate_json` → 422 missing; `json.loads` raising
`JSONDecodeError` → 422 not-valid-JSON; in the `try`-`else`, `len(json_dict)
== 0` → 422 empty (a `len` `TypeError` here is not caught by the
`except json.decoder.JSONDecodeError` clause and escapes); then enqueue, and
either 202 (webhook supplied) or block on the task result (200). -/
def queue_ro_crate_metadata_validation_task (delayOutcome : Except PyExc String)
    (crate_json profile_name webhook_url : Option String) : MetaQueueOut :=
  let _ := profile_name
  if pyTruthy crate_json = false then
    { outcome := .ok (.errorMsg "Missing required parameter: crate_json", 422),
      enqueued := false, waited := false }
  else
    match json_loads (crate_json.getD "") with
    | .error err =>
      { outcome := .ok (.errorMsg ("Required parameter crate_json is not valid JSON: " ++ err), 422),
        enqueued := false, waited := false }
    | .ok json_dict =>
      match pyLen json_dict with
      | .error e => { outcome := .error e, enqueued := false, waited := false }
      | .ok n =>
        if n = 0 then
          { outcome := .ok (.errorMsg "Required parameter crate_json is empty", 422),
            enqueued := false, waited := false }
        else
          match delayOutcome with
          | .error e =>
            { outcome := .ok (.errorMsg e.str, 500), enqueued := false, waited := false }
          | .ok taskReturn =>
            if pyTruthy webhook_url then
              { outcome := .ok (.message "Validation in progress", 202),
                enqueued := true, waited := false }
            else
              { outcome := .ok (.result taskReturn, 200), enqueued := true, waited := true }

/-- One entry of a MinIO listing (`minio.datatypes.Object`): its path and its
directory-marker flag. -/
structure MinioObject where
  object_name : String
  is_dir : Bool
deriving DecidableEq

/-- Oracle for a connected MinIO client: each field models one client method,
returning a value or raising (`S3Error`, `ValueError`, or any other
`Exception`).  `list_objects` takes the bucket, the prefix and the recursive
flag; `put_object` takes the bucket, the object name and the (canonicalized)
JSON payload; `get_object` returns the decoded object data; `fget_object`
downloads an object to a local path. -/
structure MinioClient where
  list_objects : String → String → Bool → Except PyExc (List MinioObject)
  put_object : String → String → JsonVal → Except PyExc Unit
  get_object : String → String → Except PyExc String
  fget_object : String → String → String → Except PyExc Unit

/-- Error tagging shared by the four store-adapter functions in
`minio_utils.py`: `except S3Error` → "MinIO S3 Error: ...", `except ValueError`
→ "Configuration Error: ..." (this also catches `json.decoder.JSONDecodeError`,
a `ValueError` subclass), `except Exception` → "Unknown Error: ..."; every tag
carries HTTP-status hint 500. -/
def tagStoreError : PyExc → PyExc
  | .s3Error m => .invalidAPIUsage ("MinIO S3 Error: " ++ m) 500
  | .valueError m => .invalidAPIUsage ("Configuration Error: " ++ m) 500
  | .jsonDecodeError m => .invalidAPIUsage ("Configuration Error: " ++ m) 500
  | e => .invalidAPIUsage ("Unknown Error: " ++ e.str) 500

/-- Result-object path as computed by `update_validation_status_in_minio`
(`minio_utils.py` lines 77-81): `if root_path:` is Python truthiness, so `None`
and the empty string both take the bare branch. -/
def update_validation_object_name (root_path : Option String) (crate_id : String) : String :=
  match root_path with
  | some r => if r = "" then crate_id ++ "_validation/validation_status.txt"
              else r ++ "/" ++ crate_id ++ "_validation/validation_status.txt"
  | none => crate_id ++ "_validation/validation_status.txt"

/-- Result-object path as computed by `get_validation_status_from_minio`
(`minio_utils.py` lines 124-128). -/
def get_validation_object_name (root_path : Option String) (crate_id : String) : String :=
  match root_path with
  | some r => if r = "" then crate_id ++ "_validation/validation_status.txt"
              else r ++ "/" ++ crate_id ++ "_validation/validation_status.txt"
  | none => crate_id ++ "_validation/validation_status.txt"

/-- Result-object path as computed by `find_validation_object_on_minio`
(`minio_utils.py` lines 204-207). -/
def find_validation_object_name (root_path : Option String) (rocrate_id : String) : String :=
  match root_path with
  | some r => if r = "" then rocrate_id ++ "_validation/validation_status.txt"
              else r ++ "/" ++ rocrate_id ++ "_validation/validation_status.txt"
  | none => rocrate_id ++ "_validation/validation_status.txt"

/-- Crate prefix as computed by `find_rocrate_object_on_minio`
(`minio_utils.py` lines 241-244). -/
def rocrate_prefix_path (root_path : Option String) (rocrate_id : String) : String :=
  match root_path with
  | some r => if r = "" then rocrate_id else r ++ "/" ++ rocrate_id
  | none => rocrate_id

/-- A MinIO bucket's contents, for the overwrite property: object name →
stored payload. -/
def BucketState : Type := String → Option JsonVal

/-- Effect of one successful `put_object` on a bucket: the object at that name
is replaced, everything else is untouched (MinIO has no versioning here). -/
def bucketPut (s : BucketState) (object_name : String) (payload : JsonVal) : BucketState :=
  fun k => if k = object_name then some payload else s k

/-- Model of `update_validation_status_in_minio` (`minio_utils.py` lines
64-109).  The canonicalization `json.dumps(json.loads(validation_status))` runs
BEFORE the `try` block, so a `validation_status` that is not valid JSON raises
an untagged `JSONDecodeError`; only the `put_object` call is wrapped by the
tagging handlers.  The canonical payload is modelled as the parsed JSON value
(its minified re-encoding carries the same information). -/
def update_validation_status_in_minio (minio_client : MinioClient) (minio_bucket : String)
    (crate_id : String) (root_path : Option String) (validation_status : String) :
    Except PyExc Unit :=
  let object_name := update_validation_object_name root_path crate_id
  match json_loads validation_status with
  | .error m => .error (.jsonDecodeError m)
  | .ok validation_payload =>
    match minio_client.put_object minio_bucket object_name validation_payload with
    | .ok _ => .ok ()
    | .error e => .error (tagStoreError e)

/-- Model of `get_validation_status_from_minio` (`minio_utils.py` lines
112-155).  Here the `json.loads` of the downloaded data sits INSIDE the `try`,
so a malformed stored result is caught by `except ValueError` and tagged as a
Configuration Error. -/
def get_validation_status_from_minio (minio_client : MinioClient) (minio_bucket : String)
    (crate_id : String) (root_path : Option String) : Except PyExc JsonVal :=
  let object_name := get_validation_object_name root_path crate_id
  match minio_client.get_object minio_bucket object_name with
  | .error e => .error (tagStoreError e)
  | .ok data =>
    match json_loads data with
    | .error m => .error (tagStoreError (.jsonDecodeError m))
    | .ok v => .ok v

/-- Model of `download_file_from_minio` (`minio_utils.py` lines 158-184): a
straight tagged wrapper around `fget_object`. -/
def download_file_from_minio (minio_client : MinioClient) (minio_bucket : String)
    (object_path : String) (file_path : String) : Except PyExc Unit :=
  match minio_client.fget_object minio_bucket object_path file_path with
  | .ok _ => .ok ()
  | .error e => .error (tagStoreError e)

/-- Model of `get_minio_object_list` (`minio_utils.py` lines 262-300): a tagged
wrapper around `list_objects`. -/
def get_minio_object_list (object_path : String) (minio_client : MinioClient)
    (minio_bucket : String) (recursive : Bool := false) :
    Except PyExc (List MinioObject) :=
  match minio_client.list_objects minio_bucket object_path recursive with
  | .ok objs => .ok objs
  | .error e => .error (tagStoreError e)

/-- Model of `find_rocrate_object_on_minio` (`minio_utils.py` lines 224-259):
list objects under the crate prefix; the first object that is either the
directory marker `<prefix>/` or the zip `<prefix>.zip` wins; `False`
(here `none`) when neither is present. -/
def find_rocrate_object_on_minio (rocrate_id : String) (minio_client : MinioClient)
    (minio_bucket : String) (root_path : Option String) :
    Except PyExc (Option MinioObject) :=
  let rocrate_path := rocrate_prefix_path root_path rocrate_id
  match get_minio_object_list rocrate_path minio_client minio_bucket with
  | .error e => .error e
  | .ok objs =>
    .ok (objs.find? (fun obj =>
      (obj.object_name == rocrate_path ++ "/" && obj.is_dir)
        || obj.object_name == rocrate_path ++ ".zip"))

/-- Model of `find_validation_object_on_minio` (`minio_utils.py` lines
187-221): exact-name lookup of the result object. -/
def find_validation_object_on_minio (rocrate_id : String) (minio_client : MinioClient)
    (minio_bucket : String) (root_path : Option String) :
    Except PyExc (Option MinioObject) :=
  let file_path := find_validation_object_name root_path rocrate_id
  match get_minio_object_list file_path minio_client minio_bucket with
  | .error e => .error e
  | .ok objs => .ok (objs.find? (fun obj => obj.object_name == file_path))

/-- Model of `check_ro_crate_exists` (`validation_tasks.py` lines 245-266):
four required positional parameters `(minio_client, bucket_name, crate_id,
root_path)`; truthiness of the found object decides the boolean. -/
def check_ro_crate_exists (minio_client : MinioClient) (bucket_name : String)
    (crate_id : String) (root_path : Option String) : Except PyExc Bool :=
  match find_rocrate_object_on_minio crate_id minio_client bucket_name root_path with
  | .error e => .error e
  | .ok found => .ok found.isSome

/-- Model of `check_validation_exists` (`validation_tasks.py` lines 269-290):
four required positional parameters. -/
def check_validation_exists (minio_client : MinioClient) (bucket_name : String)
    (crate_id : String) (root_path : Option String) : Except PyExc Bool :=
  match find_validation_object_on_minio crate_id minio_client bucket_name root_path with
  | .error e => .error e
  | .ok found => .ok found.isSome

/-- Result object of the `rocrate_validator` engine as this code base uses it:
`has_issues()` and `to_json()` (a JSON string). -/
structure ValidationResult where
  has_issues : Bool
  to_json : String
deriving DecidableEq

/-- `rocrate_validator.services.ValidationSettings` as built by the two
adapters: only the keyword arguments that the dynamic `**(... if ... else {})`
splats actually include are present (`none` = the key was omitted). -/
structure ValidationSettings where
  rocrate_uri : Option String := none
  metadata_only : Option Bool := none
  metadata_dict : Option JsonVal := none
  profile_identifier : Option String := none
  skip_checks : Option (List String) := none
  profiles_path : Option String := none

/-- The validation engine (`rocrate_validator.services.validate`), as an
oracle: it may return a result or raise any exception. -/
def Engine : Type := ValidationSettings → Except PyExc ValidationResult

/-- `os.path.join` for the two-argument uses in this code base: an absolute
second component discards the first; a trailing slash on the first is not
doubled. -/
def os_path_join (a b : String) : String :=
  match b.data with
  | '/' :: _ => b
  | _ =>
    if a = "" then b
    else if a.data.getLast? = some '/' then a ++ b
    else a ++ "/" ++ b

/-- Settings built by `perform_ro_crate_validation` (`validation_tasks.py`
lines 193-203): `rocrate_uri` is the file path joined onto the application
base directory; `profile_identifier`, `skip_checks` and `profiles_path` are
included only when truthy (an empty list or empty string is falsy and the key
is omitted). -/
def ro_crate_validation_settings (app_base_dir : String) (file_path : String)
    (profile_name : Option String) (skip_checks_list : Option (List String))
    (profiles_path : Option String) : ValidationSettings :=
  { rocrate_uri := some (os_path_join app_base_dir file_path)
    profile_identifier := if pyTruthy profile_name then profile_name else none
    skip_checks :=
      match skip_checks_list with
      | some l => if l = [] then none else some l
      | none => none
    profiles_path := if pyTruthy profiles_path then profiles_path else none }

/-- Settings built by `perform_metadata_validation` (`validation_tasks.py`
lines 229-239): always `metadata_only=True` with the parsed metadata dict;
the optional keys as above. -/
def metadata_validation_settings (metadata : JsonVal) (profile_name : Option String)
    (skip_checks_list : Option (List String)) (profiles_path : Option String) :
    ValidationSettings :=
  { metadata_only := some true
    metadata_dict := some metadata
    profile_identifier := if pyTruthy profile_name then profile_name else none
    skip_checks :=
      match skip_checks_list with
      | some l => if l = [] then none else some l
      | none => none
    profiles_path := if pyTruthy profiles_path then profiles_path else none }

/-- Model of `perform_ro_crate_validation` (`validation_tasks.py` lines
165-206).  The whole body is inside `try: ... except Exception as e: return
str(e)`, so the adapter returns `Sum.inl` a result or `Sum.inr` a failure
string; the outer `Except` layer records whether an exception escapes to the
caller (it never does). -/
def perform_ro_crate_validation (validate : Engine) (app_base_dir : String)
    (file_path : String) (profile_name : Option String)
    (skip_checks_list : Option (List String)) (profiles_path : Option String) :
    Except PyExc (ValidationResult ⊕ String) :=
  match validate (ro_crate_validation_settings app_base_dir file_path profile_name
      skip_checks_list profiles_path) with
  | .ok r => .ok (.inl r)
  | .error e => .ok (.inr e.str)

/-- Model of `perform_metadata_validation` (`validation_tasks.py` lines
209-242).  `json.loads(crate_json)` runs inside the `try`, so a malformed
metadata string is also converted to a returned failure string. -/
def perform_metadata_validation (validate : Engine) (crate_json : String)
    (profile_name : Option String) (skip_checks_list : Option (List String))
    (profiles_path : Option String) : Except PyExc (ValidationResult ⊕ String) :=
  match json_loads crate_json with
  | .error m => .ok (.inr (PyExc.jsonDecodeError m).str)
  | .ok metadata =>
    match validate (metadata_validation_settings metadata profile_name
        skip_checks_list profiles_path) with
    | .ok r => .ok (.inl r)
    | .error e => .ok (.inr e.str)

/-- The engine settings that `process_validation_task_by_metadata` causes to be
built: it calls `perform_metadata_validation(crate_json, profile_name,
profiles_path=profiles_path)` (`validation_tasks.py` lines 137-139), so
`skip_checks_list` keeps its default `None`; `.error` when the metadata string
does not parse (then the engine is never reached). -/
def process_by_metadata_engine_settings (crate_json : String)
    (profile_name profiles_path : Option String) : Except String ValidationSettings :=
  match json_loads crate_json with
  | .error m => .error m
  | .ok metadata => .ok (metadata_validation_settings metadata profile_name none profiles_path)

/-- A payload delivered to the webhook: either the raw validation result JSON,
or the failure payload dict with keys `profile_name` and `error`. -/
inductive WebhookPayload where
  | success (resultJson : String)
  | failure (profile_name : Option String) (error : String)
deriving DecidableEq

/-- Modelled from the spec: `send_webhook_notification` (the
`app.utils.webhook_utils` module imported by `validation_tasks.py` is not part
of the source tree).  Per the spec's Notification Sender component it delivers
a JSON payload to the callback URL best-effort, so delivery is modelled as a
pure trace event that does not raise. -/
def webhook_payloads (webhook_url : Option String) (payload : WebhookPayload) :
    List WebhookPayload :=
  if pyTruthy webhook_url then [payload] else []

/-- Observable outcome of `process_validation_task_by_metadata`: the task's
return value (always a string, produced by the `finally` clause) and the
webhook deliveries. -/
structure MetaTaskOut where
  ret : String
  webhookSent : List WebhookPayload

/-- Model of `process_validation_task_by_metadata` (`validation_tasks.py`
lines 113-162).  The adapter call passes no `skip_checks_list`.  A string
result from the adapter raises `Exception("Validation failed: ...")`, caught by
the task's own handler, which sends the failure payload when a webhook is
present; the `finally` clause returns the result string either way.  The
`.error` branch of the adapter is unreachable (the adapter is total) but is
mapped through the same `except Exception` handler. -/
def process_validation_task_by_metadata (validate : Engine) (crate_json : String)
    (profile_name webhook_url profiles_path : Option String) : MetaTaskOut :=
  match perform_metadata_validation validate crate_json profile_name none profiles_path with
  | .ok (.inl validation_result) =>
    { ret := validation_result.to_json
      webhookSent := webhook_payloads webhook_url (.success validation_result.to_json) }
  | .ok (.inr s) =>
    { ret := s
      webhookSent := webhook_payloads webhook_url (.failure profile_name ("Validation failed: " ++ s)) }
  | .error e =>
    { ret := e.str
      webhookSent := webhook_payloads webhook_url (.failure profile_name e.str) }

/-- What the local temp path returned by `fetch_ro_crate_from_minio` is at
cleanup time, for the `os.path.isfile` / `os.path.isdir` / `os.path.exists`
gates of the task's `finally` block. -/
inductive PathKind where
  | file
  | dir
  | gone
deriving DecidableEq

/-- A successful fetch: the local path and what kind of entry it is. -/
structure FetchedPath where
  path : String
  kind : PathKind
deriving DecidableEq

/-- Observable effects of one run of `process_validation_task_by_id`: the
result JSON persisted to the store (if any), the webhook deliveries in order,
and which path was removed by `os.remove` or `shutil.rmtree`. -/
structure ByIdEffects where
  persisted : Option String
  webhookSent : List WebhookPayload
  removedFile : Option String
  removedDirectory : Option String

/-- Model of `process_validation_task_by_id` (`validation_tasks.py` lines
30-110).  `fetchOutcome` is the oracle for `fetch_ro_crate_from_minio` (object
listing and temp-dir mirroring are outside the shallow embedding); the engine
and the store client enter through `validate` and `minio_client`.

The whole body is one `try`: a failed fetch leaves `file_path = None`; a
string result from the validation adapter raises `Exception("Validation
failed: ...")`; the persist step is `update_validation_status_in_minio`, whose
exceptions (and the unreachable adapter exception) land in the same `except
Exception` handler, which sends the failure payload `profile_name`/`error`
only when a webhook URL is present and persists nothing.  On success the raw
result JSON is delivered to the webhook when present.  The `finally` block
removes the temp file, or recursively deletes the temp directory, gated on
`file_path` being set and existing. -/
def process_validation_task_by_id (fetchOutcome : Except PyExc FetchedPath)
    (validate : Engine) (minio_client : MinioClient) (app_base_dir : String)
    (minio_bucket : String) (crate_id : String)
    (root_path profile_name webhook_url profiles_path : Option String) : ByIdEffects :=
  match fetchOutcome with
  | .error e =>
    { persisted := none
      webhookSent := webhook_payloads webhook_url (.failure profile_name e.str)
      removedFile := none
      removedDirectory := none }
  | .ok fp =>
    let removedFile := if fp.kind = PathKind.file then some fp.path else none
    let removedDirectory := if fp.kind = PathKind.dir then some fp.path else none
    match perform_ro_crate_validation validate app_base_dir fp.path profile_name
        none profiles_path with
    | .ok (.inr s) =>
      { persisted := none
        webhookSent := webhook_payloads webhook_url
          (.failure profile_name ("Validation failed: " ++ s))
        removedFile := removedFile
        removedDirectory := removedDirectory }
    | .error e =>
      { persisted := none
        webhookSent := webhook_payloads webhook_url (.failure profile_name e.str)
        removedFile := removedFile
        removedDirectory := removedDirectory }
    | .ok (.inl validation_result) =>
      match update_validation_status_in_minio minio_client minio_bucket crate_id
          root_path validation_result.to_json with
      | .error e =>
        { persisted := none
          webhookSent := webhook_payloads webhook_url (.failure profile_name e.str)
          removedFile := removedFile
          removedDirectory := removedDirectory }
      | .ok _ =>
        { persisted := some validation_result.to_json
          webhookSent := webhook_payloads webhook_url (.success validation_result.to_json)
          removedFile := removedFile
          removedDirectory := removedDirectory }

/-- Which stage of the by-id task fails, if any, for a given environment:
mirrors the sequential stages fetch → validate → persist of
`process_validation_task_by_id`. -/
def by_id_stage_failed (fetchOutcome : Except PyExc FetchedPath) (validate : Engine)
    (minio_client : MinioClient) (app_base_dir : String) (minio_bucket : String)
    (crate_id : String) (root_path profile_name profiles_path : Option String) : Bool :=
  match fetchOutcome with
  | .error _ => true
  | .ok fp =>
    match perform_ro_crate_validation validate app_base_dir fp.path profile_name
        none profiles_path with
    | .ok (.inl validation_result) =>
      match update_validation_status_in_minio minio_client minio_bucket crate_id
          root_path validation_result.to_json with
      | .error _ => true
      | .ok _ => false
    | _ => true

/-- Model of `return_ro_crate_validation` (`validation_tasks.py` lines
293-311): four required positional parameters, delegating to
`get_validation_status_from_minio`. -/
def return_ro_crate_validation (minio_client : MinioClient) (bucket_name : String)
    (crate_id : String) (root_path : Option String) : Except PyExc JsonVal :=
  get_validation_status_from_minio minio_client bucket_name crate_id root_path

/-- Python positional-argument binding: calling a function that declares
`params` required positional parameters (none with defaults) with `args`
positional arguments raises `TypeError` before the body runs unless the counts
match. -/
def pyBindPositional (fname : String) (params args : Nat) : Except PyExc Unit :=
  if args = params then .ok ()
  else .error (.typeError (fname ++ "() missing required positional arguments"))

/-- Required positional parameter count of `check_ro_crate_exists`
(`validation_tasks.py` line 245: `minio_client, bucket_name, crate_id,
root_path`, no defaults). -/
def check_ro_crate_exists_param_count : Nat := 4

/-- Required positional parameter count of `check_validation_exists`
(`validation_tasks.py` line 269). -/
def check_validation_exists_param_count : Nat := 4

/-- Required positional parameter count of `return_ro_crate_validation`
(`validation_tasks.py` line 293). -/
def return_ro_crate_validation_param_count : Nat := 4

/-- Observable outcome of `queue_ro_crate_validation_task`: the returned
`(response, status)` pair or the exception that escaped, and whether the by-id
task was enqueued. -/
structure QueueOut where
  outcome : Except PyExc (Resp × Nat)
  enqueued : Bool

/-- Model of `queue_ro_crate_validation_task` (`validation_service.py` lines
27-58).  The source calls `check_ro_crate_exists(minio_bucket, crate_id,
root_path)` with THREE positional arguments (line 44), while
`check_ro_crate_exists` declares four required positional parameters, so the
call raises `TypeError` before any store round trip; the rest of the body is
modelled downstream of that binding check.  `wouldExist` is the boolean the
existence check would produce were it callable (the result is independent of
it), and `delayOutcome` is the oracle for
`process_validation_task_by_id.delay(...)`. -/
def queue_ro_crate_validation_task (wouldExist : Bool)
    (delayOutcome : Except PyExc Unit) (crate_id : String)
    (root_path profile_name webhook_url : Option String) : QueueOut :=
  let _ := (root_path, profile_name)
  match pyBindPositional "check_ro_crate_exists" check_ro_crate_exists_param_count 3 with
  | .error e => { outcome := .error e, enqueued := false }
  | .ok _ =>
    if wouldExist then
      match delayOutcome with
      | .ok _ =>
        let _ := webhook_url
        { outcome := .ok (.message "Validation in progress", 202), enqueued := true }
      | .error e => { outcome := .ok (.errorMsg e.str, 500), enqueued := false }
    else
      { outcome := .error (.invalidAPIUsage ("No RO-Crate with prefix: " ++ crate_id) 400),
        enqueued := false }

/-- Model of `get_ro_crate_validation_task` (`validation_service.py` lines
102-125).  All three helper calls pass THREE positional arguments
(`check_ro_crate_exists(minio_bucket, crate_id, root_path)` at line 113,
`check_validation_exists(...)` at line 119, `return_ro_crate_validation(...)`
at line 125) against four required parameters each, so the very first call
raises `TypeError`.  The `would*` parameters are what the helpers would return
were they callable. -/
def get_ro_crate_validation_task (wouldCrateExist wouldValidationExist : Bool)
    (wouldResult : JsonVal) (crate_id : String) : Except PyExc (JsonVal × Nat) :=
  match pyBindPositional "check_ro_crate_exists" check_ro_crate_exists_param_count 3 with
  | .error e => .error e
  | .ok _ =>
    if wouldCrateExist then
      match pyBindPositional "check_validation_exists" check_validation_exists_param_count 3 with
      | .error e => .error e
      | .ok _ =>
        if wouldValidationExist then
          match pyBindPositional "return_ro_crate_validation"
              return_ro_crate_validation_param_count 3 with
          | .error e => .error e
          | .ok _ => .ok (wouldResult, 200)
        else
          .error (.invalidAPIUsage ("No validation result yet for RO-Crate: " ++ crate_id) 400)
    else
      .error (.invalidAPIUsage ("No RO-Crate with prefix: " ++ crate_id) 400)

/-- Substring containment at the string level (`needle in hay`). -/
def strContains (needle hay : String) : Prop :=
  ∃ a b : String, hay = a ++ needle ++ b

/-- The store-adapter error discipline the spec describes: an `InvalidAPIUsage`
with HTTP-status hint 500 whose message is prefixed by one of the three tags. -/
def taggedStoreFailure (e : PyExc) : Prop :=
  ∃ m rest, e = PyExc.invalidAPIUsage m 500 ∧
    (m = "MinIO S3 Error: " ++ rest ∨ m = "Configuration Error: " ++ rest ∨
      m = "Unknown Error: " ++ rest)

/-- A MinIO-client oracle whose operations all succeed trivially (used to
evaluate the models at concrete inputs). -/
def trivialMinioClient : MinioClient :=
  { list_objects := fun _ _ _ => .ok []
    put_object := fun _ _ _ => .ok ()
    get_object := fun _ _ => .ok "null"
    fget_object := fun _ _ _ => .ok () }

/-- An engine oracle that always raises (used to evaluate the models at
concrete inputs). -/
def failingEngine : Engine := fun _ => .error (.otherError "engine down")

/-- An engine oracle that always succeeds with a fixed result (used to
evaluate the models at concrete inputs). -/
def okEngine : Engine := fun _ => .ok { has_issues := false, to_json := "null" }

/-- C1: the claim says submit-by-reference fails fast with
InvalidAPIUsage 400 "No RO-Crate with prefix: <id>" when the crate is absent
and enqueues + returns 202 when it exists.  On the code as written, the
existence check itself is called with three positional arguments against four
required parameters, so every call raises `TypeError` before any store round
trip: neither the 400 path nor the 202/enqueue path is reachable. -/
theorem C1_queue_by_reference_always_type_error
    (wouldExist : Bool) (delayOutcome : Except PyExc Unit) (crate_id : String)
    (root_path profile_name webhook_url : Option String) :
    (queue_ro_crate_validation_task wouldExist delayOutcome crate_id root_path
        profile_name webhook_url).outcome =
      .error (.typeError "check_ro_crate_exists() missing required positional arguments") ∧
    (queue_ro_crate_validation_task wouldExist delayOutcome crate_id root_path
        profile_name webhook_url).enqueued = false := by
  constructor <;> rfl

/-- C4: the claim says fetch-result checks crate existence first (400 "No
RO-Crate with prefix"), then result existence (400 "No validation result
yet"), then returns the stored result with 200.  On the code as written the
first helper call already raises `TypeError` (three positional arguments
against four required parameters), so none of the three described outcomes is
reachable. -/
theorem C4_get_validation_always_type_error
    (wouldCrateExist wouldValidationExist : Bool) (wouldResult : JsonVal)
    (crate_id : String) :
    get_ro_crate_validation_task wouldCrateExist wouldValidationExist wouldResult crate_id =
      .error (.typeError "check_ro_crate_exists() missing required positional arguments") := by
  rfl

/-- C6: the writer (`update_validation_status_in_minio`), the existence check
(`find_validation_object_on_minio`) and the reader
(`get_validation_status_from_minio`) all compute the identical result-object
path, which is the pure function of (root path, crate id) the claim states —
`<root_path>/<crate_id>_validation/validation_status.txt` when a root path is
given (truthy), else `<crate_id>_validation/validation_status.txt` — with no
randomness or versioning, so a second write overwrites the first at the same
key. -/
theorem C6_result_path_deterministic
    (root_path : Option String) (crate_id : String) (store : BucketState)
    (v1 v2 : JsonVal) :
    update_validation_object_name root_path crate_id =
      find_validation_object_name root_path crate_id ∧
    update_validation_object_name root_path crate_id =
      get_validation_object_name root_path crate_id ∧
    (∀ r, root_path = some r → r ≠ "" →
      update_validation_object_name root_path crate_id =
        r ++ "/" ++ crate_id ++ "_validation/validation_status.txt") ∧
    (pyTruthy root_path = false →
      update_validation_object_name root_path crate_id =
        crate_id ++ "_validation/validation_status.txt") ∧
    bucketPut (bucketPut store (update_validation_object_name root_path crate_id) v1)
        (update_validation_object_name root_path crate_id) v2
        (update_validation_object_name root_path crate_id) = some v2 := by
  refine ⟨rfl, rfl, ?_, ?_, ?_⟩
  · rintro r rfl hr
    simp [update_validation_object_name, hr]
  · intro htruthy
    cases root_path with
    | none => rfl
    | some r =>
      have hr : r = "" := by
        by_contra hne
        simp [pyTruthy, hne] at htruthy
      simp [update_validation_object_name, hr]
  · simp [bucketPut]

/-- C6 witness: the path functions and the overwrite property evaluated at a
concrete root path, crate id and store. -/
theorem C6_result_path_deterministic_witness :
    update_validation_object_name (some "root") "crate1" =
      "root" ++ "/" ++ "crate1" ++ "_validation/validation_status.txt" ∧
    bucketPut (bucketPut (fun _ => none) (update_validation_object_name (some "root") "crate1")
        JsonVal.null) (update_validation_object_name (some "root") "crate1") (.bool true)
        (update_validation_object_name (some "root") "crate1") = some (.bool true) := by
  have h := C6_result_path_deterministic (some "root") "crate1" (fun _ => none)
    JsonVal.null (.bool true)
  exact ⟨h.2.2.1 "root" rfl (by decide), h.2.2.2.2⟩

/-- C2: metadata-submission input validation: a missing or empty `crate_json`
yields 422 with "Missing required parameter", an unparseable string yields 422
with "not valid JSON", a string parsing to an empty top-level object yields
422 with "Required parameter crate_json is empty"; the three error messages
are pairwise distinct and no task is enqueued in any of the three cases. -/
theorem C2_metadata_input_validation
    (delayOutcome : Except PyExc String)
    (crate_json profile_name webhook_url : Option String) :
    ((crate_json = none ∨ crate_json = some "") →
      (queue_ro_crate_metadata_validation_task delayOutcome crate_json profile_name
          webhook_url).outcome =
        .ok (.errorMsg "Missing required parameter: crate_json", 422) ∧
      strContains "Missing required parameter" "Missing required parameter: crate_json" ∧
      (queue_ro_crate_metadata_validation_task delayOutcome crate_json profile_name
          webhook_url).enqueued = false) ∧
    (∀ s err, crate_json = some s → s ≠ "" → json_loads s = .error err →
      (queue_ro_crate_metadata_validation_task delayOutcome crate_json profile_name
          webhook_url).outcome =
        .ok (.errorMsg ("Required parameter crate_json is not valid JSON: " ++ err), 422) ∧
      strContains "not valid JSON"
        ("Required parameter crate_json is not valid JSON: " ++ err) ∧
      (queue_ro_crate_metadata_validation_task delayOutcome crate_json profile_name
          webhook_url).enqueued = false) ∧
    (∀ s v, crate_json = some s → json_loads s = .ok v → pyLen v = .ok 0 →
      (queue_ro_crate_metadata_validation_task delayOutcome crate_json profile_name
          webhook_url).outcome =
        .ok (.errorMsg "Required parameter crate_json is empty", 422) ∧
      (queue_ro_crate_metadata_validation_task delayOutcome crate_json profile_name
          webhook_url).enqueued = false) ∧
    (∀ err,
      ("Required parameter crate_json is not valid JSON: " ++ err) ≠
        "Missing required parameter: crate_json" ∧
      ("Required parameter crate_json is not valid JSON: " ++ err) ≠
        "Required parameter crate_json is empty") ∧
    ("Missing required parameter: crate_json" : String) ≠
      "Required parameter crate_json is empty" := by
  refine ⟨?_, ?_, ?_, ?_, by decide⟩
  · rintro (rfl | rfl) <;>
      exact ⟨rfl, ⟨"", ": crate_json", by decide⟩, rfl⟩
  · rintro s err rfl hs hjson
    have hb : pyTruthy (some s) = true := by simp [pyTruthy, hs]
    refine ⟨?_, ?_, ?_⟩
    · simp [queue_ro_crate_metadata_validation_task, hb, hjson]
    · refine ⟨"Required parameter crate_json is ", ": " ++ err, ?_⟩
      have h1 : ("Required parameter crate_json is " ++ "not valid JSON" ++ ": " : String) =
          "Required parameter crate_json is not valid JSON: " := by decide
      calc "Required parameter crate_json is not valid JSON: " ++ err
          = ("Required parameter crate_json is " ++ "not valid JSON" ++ ": ") ++ err := by
            rw [h1]
        _ = "Required parameter crate_json is " ++ "not valid JSON" ++ (": " ++ err) := by
            rw [String.append_assoc]
    · simp [queue_ro_crate_metadata_validation_task, hb, hjson]
  · rintro s v rfl hjson hlen
    have hs : s ≠ "" := by
      rintro rfl
      exact Except.noConfusion (show (Except.error "Expecting value" : Except String JsonVal)
        = .ok v from hjson)
    have hb : pyTruthy (some s) = true := by simp [pyTruthy, hs]
    constructor <;> simp [queue_ro_crate_metadata_validation_task, hb, hjson, hlen]
  · intro err
    have h49 : ("Required parameter crate_json is not valid JSON: ").length = 49 := rfl
    constructor
    · intro h
      have hl := congrArg String.length h
      rw [String.length_append, h49] at hl
      have h38 : ("Missing required parameter: crate_json").length = 38 := rfl
      rw [h38] at hl
      omega
    · intro h
      have hl := congrArg String.length h
      rw [String.length_append, h49] at hl
      have h38 : ("Required parameter crate_json is empty").length = 38 := rfl
      rw [h38] at hl
      omega

/-- C2 witness: the three validation branches evaluated at the concrete inputs
"\x7b" (malformed), "\x7b\x7d" (empty object) and the missing/empty string. -/
theorem C2_metadata_input_validation_witness :
    (queue_ro_crate_metadata_validation_task (.ok "r") (some "\x7b") none none).outcome =
      .ok (.errorMsg ("Required parameter crate_json is not valid JSON: " ++
        "Expecting property name enclosed in double quotes"), 422) ∧
    (queue_ro_crate_metadata_validation_task (.ok "r") (some "\x7b") none none).enqueued
      = false ∧
    (queue_ro_crate_metadata_validation_task (.ok "r") (some "\x7b\x7d") none none).outcome =
      .ok (.errorMsg "Required parameter crate_json is empty", 422) ∧
    (queue_ro_crate_metadata_validation_task (.ok "r") (some "") none none).outcome =
      .ok (.errorMsg "Missing required parameter: crate_json", 422) := by
  have h1 := (C2_metadata_input_validation (.ok "r") (some "\x7b") none none).2.1
    "\x7b" "Expecting property name enclosed in double quotes" rfl (by decide) (by rfl)
  have h2 := (C2_metadata_input_validation (.ok "r") (some "\x7b\x7d") none none).2.2.1
    "\x7b\x7d" (.obj []) rfl (by rfl) (by rfl)
  have h3 := (C2_metadata_input_validation (.ok "r") (some "") none none).1 (Or.inr rfl)
  exact ⟨h1.1, h1.2.2, h2.1, h3.1⟩

/-- C3: for a valid `crate_json` (parses, non-empty top level), supplying a
webhook URL makes the call enqueue the by-metadata task and return
`(message "Validation in progress", 202)` without blocking on the task
result, while supplying no webhook URL makes it block on the enqueued task's
own return value and return `(result <that value>, 200)`. -/
theorem C3_metadata_response_mode
    (taskReturn : String) (crate_json : String) (profile_name : Option String)
    (webhook : String) (v : JsonVal) (n : Nat)
    (hjson : json_loads crate_json = .ok v) (hlen : pyLen v = .ok n) (hn : n ≠ 0)
    (hw : webhook ≠ "") :
    ((queue_ro_crate_metadata_validation_task (.ok taskReturn) (some crate_json)
        profile_name (some webhook)).outcome = .ok (.message "Validation in progress", 202) ∧
      (queue_ro_crate_metadata_validation_task (.ok taskReturn) (some crate_json)
        profile_name (some webhook)).enqueued = true ∧
      (queue_ro_crate_metadata_validation_task (.ok taskReturn) (some crate_json)
        profile_name (some webhook)).waited = false) ∧
    ((queue_ro_crate_metadata_validation_task (.ok taskReturn) (some crate_json)
        profile_name none).outcome = .ok (.result taskReturn, 200) ∧
      (queue_ro_crate_metadata_validation_task (.ok taskReturn) (some crate_json)
        profile_name none).enqueued = true ∧
      (queue_ro_crate_metadata_validation_task (.ok taskReturn) (some crate_json)
        profile_name none).waited = true) := by
  have hs : crate_json ≠ "" := by
    rintro rfl
    exact Except.noConfusion (show (Except.error "Expecting value" : Except String JsonVal)
      = .ok v from hjson)
  have hb : pyTruthy (some crate_json) = true := by simp [pyTruthy, hs]
  have hwt : pyTruthy (some webhook) = true := by simp [pyTruthy, hw]
  constructor <;> refine ⟨?_, ?_, ?_⟩ <;>
    simp [queue_ro_crate_metadata_validation_task, hb, hjson, hlen, hn, hwt, pyTruthy,
      hs, hw]

/-- C3 witness: both response modes evaluated at a concrete valid metadata
document. -/
theorem C3_metadata_response_mode_witness :
    (queue_ro_crate_metadata_validation_task (.ok "resultJson")
        (some "\x7b\"a\": 1\x7d") none (some "http://hook")).outcome =
      .ok (.message "Validation in progress", 202) ∧
    (queue_ro_crate_metadata_validation_task (.ok "resultJson")
        (some "\x7b\"a\": 1\x7d") none none).outcome =
      .ok (.result "resultJson", 200) := by
  have h := C3_metadata_response_mode "resultJson" "\x7b\"a\": 1\x7d" none "http://hook"
    (.obj [("a", .num "1")]) 1 (by rfl) (by rfl) (by decide) (by decide)
  exact ⟨h.1.1, h.2.1⟩

/-- C10: "null" is well-formed JSON whose parsed value is not a sized
container, and submitting it makes
`queue_ro_crate_metadata_validation_task` raise an uncaught `TypeError` from
`len()` instead of returning a `(response, status)` pair; over inputs that
are missing, unparseable, or parse to sized values (objects, arrays,
strings), the function does return a pair. -/
theorem C10_metadata_len_type_error :
    (json_loads "null" = .ok JsonVal.null ∧ JsonVal.null.sized = false) ∧
    (∀ (delayOutcome : Except PyExc String) (profile_name webhook_url : Option String),
      (queue_ro_crate_metadata_validation_task delayOutcome (some "null") profile_name
          webhook_url).outcome =
        .error (.typeError "object of type NoneType has no len()") ∧
      (queue_ro_crate_metadata_validation_task delayOutcome (some "null") profile_name
          webhook_url).enqueued = false) ∧
    (∀ (delayOutcome : Except PyExc String) (crate_json profile_name webhook_url : Option String),
      (crate_json = none ∨ crate_json = some "" ∨
        (∃ s, crate_json = some s ∧ ((∃ e, json_loads s = .error e) ∨
          (∃ v, json_loads s = .ok v ∧ v.sized = true)))) →
      ∃ rc, (queue_ro_crate_metadata_validation_task delayOutcome crate_json profile_name
          webhook_url).outcome = .ok rc) := by
  refine ⟨⟨rfl, rfl⟩, fun delayOutcome profile_name webhook_url => ⟨rfl, rfl⟩, ?_⟩
  rintro delayOutcome crate_json profile_name webhook_url
    (rfl | rfl | ⟨s, rfl, hcase⟩)
  · exact ⟨_, rfl⟩
  · exact ⟨_, rfl⟩
  · by_cases hs : s = ""
    · subst hs
      exact ⟨_, rfl⟩
    · have hb : pyTruthy (some s) = true := by simp [pyTruthy, hs]
      rcases hcase with ⟨e, he⟩ | ⟨v, hv, hsized⟩
      · exact ⟨(.errorMsg ("Required parameter crate_json is not valid JSON: " ++ e), 422),
          by simp [queue_ro_crate_metadata_validation_task, hb, he, hs]⟩
      · obtain ⟨n, hn⟩ : ∃ n, pyLen v = .ok n := by
          cases v <;> first | exact ⟨_, rfl⟩ | simp [JsonVal.sized] at hsized
        by_cases hz : n = 0
        · subst hz
          exact ⟨(.errorMsg "Required parameter crate_json is empty", 422),
            by simp [queue_ro_crate_metadata_validation_task, hb, hv, hn, hs]⟩
        · cases delayOutcome with
          | error e =>
            exact ⟨(.errorMsg e.str, 500),
              by simp [queue_ro_crate_metadata_validation_task, hb, hv, hn, hz, hs]⟩
          | ok taskReturn =>
            cases hwt : pyTruthy webhook_url with
            | true =>
              exact ⟨(.message "Validation in progress", 202),
                by simp [queue_ro_crate_metadata_validation_task, hb, hv, hn, hz, hwt, hs]⟩
            | false =>
              exact ⟨(.result taskReturn, 200),
                by simp [queue_ro_crate_metadata_validation_task, hb, hv, hn, hz, hwt, hs]⟩

/-- C10 witness: the totality part evaluated at a concrete sized input. -/
theorem C10_metadata_len_type_error_witness :
    ∃ rc, (queue_ro_crate_metadata_validation_task (.ok "r") (some "\x7b\"a\": 1\x7d")
        none none).outcome = .ok rc := by
  exact C10_metadata_len_type_error.2.2 (.ok "r") (some "\x7b\"a\": 1\x7d") none none
    (Or.inr (Or.inr ⟨"\x7b\"a\": 1\x7d", rfl,
      Or.inr ⟨.obj [("a", .num "1")], rfl, rfl⟩⟩))

/-- C7: the two validation adapters are total: whatever the engine does
(including raising any exception), they return a value — either the
`ValidationResult` or a failure string carrying the exception's message —
and never propagate an exception to the caller. -/
theorem C7_adapter_totality
    (validate : Engine) (app_base_dir file_path crate_json : String)
    (profile_name : Option String) (skip_checks_list : Option (List String))
    (profiles_path : Option String) :
    (∃ v, perform_ro_crate_validation validate app_base_dir file_path profile_name
        skip_checks_list profiles_path = .ok v) ∧
    (∃ v, perform_metadata_validation validate crate_json profile_name
        skip_checks_list profiles_path = .ok v) ∧
    (∀ e, validate (ro_crate_validation_settings app_base_dir file_path profile_name
        skip_checks_list profiles_path) = .error e →
      perform_ro_crate_validation validate app_base_dir file_path profile_name
        skip_checks_list profiles_path = .ok (.inr e.str)) ∧
    (∀ md e, json_loads crate_json = .ok md →
      validate (metadata_validation_settings md profile_name skip_checks_list
        profiles_path) = .error e →
      perform_metadata_validation validate crate_json profile_name skip_checks_list
        profiles_path = .ok (.inr e.str)) ∧
    (∀ m, json_loads crate_json = .error m →
      perform_metadata_validation validate crate_json profile_name skip_checks_list
        profiles_path = .ok (.inr m)) := by
  refine ⟨?_, ?_, ?_, ?_, ?_⟩
  · unfold perform_ro_crate_validation
    cases validate (ro_crate_validation_settings app_base_dir file_path profile_name
        skip_checks_list profiles_path) <;> exact ⟨_, rfl⟩
  · unfold perform_metadata_validation
    cases hj : json_loads crate_json with
    | error m => exact ⟨.inr (PyExc.jsonDecodeError m).str, rfl⟩
    | ok md =>
      cases hv : validate (metadata_validation_settings md profile_name skip_checks_list
          profiles_path) with
      | ok r => exact ⟨.inl r, by simp [hj, hv]⟩
      | error e => exact ⟨.inr e.str, by simp [hj, hv]⟩
  · intro e he
    unfold perform_ro_crate_validation
    rw [he]
  · intro md e hj hv
    unfold perform_metadata_validation
    simp [hj, hv]
  · intro m hj
    unfold perform_metadata_validation
    rw [hj]
    rfl

/-- C7 witness: the adapters evaluated with an engine that always raises and
with a malformed metadata string. -/
theorem C7_adapter_totality_witness :
    perform_ro_crate_validation failingEngine "/app" "crates/c" none none none =
      .ok (.inr "engine down") ∧
    perform_metadata_validation failingEngine "\x7b\"a\": 1\x7d" none none none =
      .ok (.inr "engine down") ∧
    perform_metadata_validation okEngine "\x7b" none none none =
      .ok (.inr "Expecting property name enclosed in double quotes") := by
  refine ⟨?_, ?_, ?_⟩
  · exact (C7_adapter_totality failingEngine "/app" "crates/c" "x" none none none).2.2.1
      (.otherError "engine down") rfl
  · exact (C7_adapter_totality failingEngine "/app" "crates/c" "\x7b\"a\": 1\x7d"
      none none none).2.2.2.1 (.obj [("a", .num "1")]) (.otherError "engine down") rfl rfl
  · exact (C7_adapter_totality okEngine "/app" "crates/c" "\x7b" none none none).2.2.2.2
      "Expecting property name enclosed in double quotes" rfl

/-- C8 counterexample: on a concrete metadata submission, the settings the
by-metadata task hands to the engine carry NO `skip_checks` key at all — the
claim that the engine always receives a non-empty `skip_checks` list is false
on the code, which passes no `skip_checks_list` to the adapter. -/
theorem C8_counterexample_no_skip_checks :
    process_by_metadata_engine_settings "\x7b\"a\": 1\x7d" (some "profile") none =
      .ok (metadata_validation_settings (.obj [("a", .num "1")]) (some "profile")
        none none) ∧
    (metadata_validation_settings (.obj [("a", .num "1")]) (some "profile")
      none none).skip_checks = none ∧
    ¬ (∃ l : List String,
        (metadata_validation_settings (.obj [("a", .num "1")]) (some "profile")
          none none).skip_checks = some l ∧ l ≠ []) := by
  refine ⟨rfl, rfl, ?_⟩
  rintro ⟨l, hl, -⟩
  rw [show (metadata_validation_settings (.obj [("a", .num "1")]) (some "profile")
      none none).skip_checks = none from rfl] at hl
  exact Option.noConfusion hl

/-- C8 (amended): for every metadata submission that parses, the by-metadata
worker task invokes the engine in metadata-only mode (`metadata_only=True`
with the parsed metadata dict), but with no `skip_checks` entry: the task
passes no `skip_checks_list`, so the key is omitted from the engine
settings. -/
theorem C8_metadata_only_no_skip
    (crate_json : String) (profile_name profiles_path : Option String) (md : JsonVal)
    (hjson : json_loads crate_json = .ok md) :
    process_by_metadata_engine_settings crate_json profile_name profiles_path =
      .ok (metadata_validation_settings md profile_name none profiles_path) ∧
    (metadata_validation_settings md profile_name none profiles_path).metadata_only =
      some true ∧
    (metadata_validation_settings md profile_name none profiles_path).metadata_dict =
      some md ∧
    (metadata_validation_settings md profile_name none profiles_path).skip_checks =
      none := by
  refine ⟨?_, rfl, rfl, rfl⟩
  unfold process_by_metadata_engine_settings
  rw [hjson]

/-- C8 witness: the amended statement evaluated at a concrete metadata
document. -/
theorem C8_metadata_only_no_skip_witness :
    process_by_metadata_engine_settings "\x7b\"b\": 2\x7d" none (some "/profiles") =
      .ok (metadata_validation_settings (.obj [("b", .num "2")]) none none
        (some "/profiles")) ∧
    (metadata_validation_settings (.obj [("b", .num "2")]) none none
      (some "/profiles")).skip_checks = none := by
  have h := C8_metadata_only_no_skip "\x7b\"b\": 2\x7d" none (some "/profiles")
    (.obj [("b", .num "2")]) rfl
  exact ⟨h.1, h.2.2.2⟩

/-- Every error passing through the shared tagging handlers of
`minio_utils.py` comes out as an `InvalidAPIUsage` with status hint 500 and a
message carrying one of the three tags. -/
theorem tagStoreError_tagged (e : PyExc) : taggedStoreFailure (tagStoreError e) := by
  cases e with
  | s3Error m => exact ⟨_, m, rfl, Or.inl rfl⟩
  | valueError m => exact ⟨_, m, rfl, Or.inr (Or.inl rfl)⟩
  | jsonDecodeError m => exact ⟨_, m, rfl, Or.inr (Or.inl rfl)⟩
  | typeError m => exact ⟨_, m, rfl, Or.inr (Or.inr rfl)⟩
  | invalidAPIUsage m s => exact ⟨_, m, rfl, Or.inr (Or.inr rfl)⟩
  | otherError m => exact ⟨_, m, rfl, Or.inr (Or.inr rfl)⟩

/-- C9 counterexample: with a store client whose operations all succeed,
uploading a `validation_status` string that is not valid JSON makes
`update_validation_status_in_minio` raise an untagged `JSONDecodeError` (the
canonicalization step sits outside the `try` block), so not every failure
inside the store-adapter operations is a tagged 500 error. -/
theorem C9_counterexample_untagged_upload :
    update_validation_status_in_minio trivialMinioClient "bucket" "crate1" none "\x7b" =
      .error (.jsonDecodeError "Expecting property name enclosed in double quotes") ∧
    ¬ taggedStoreFailure
        (.jsonDecodeError "Expecting property name enclosed in double quotes") := by
  refine ⟨rfl, ?_⟩
  rintro ⟨m, rest, h, -⟩
  exact PyExc.noConfusion h

/-- C9 (amended): every failure of the underlying client call inside the four
store-adapter operations (result upload, file download, object listing,
result read) surfaces as a tagged `InvalidAPIUsage` — "MinIO S3 Error",
"Configuration Error" or "Unknown Error" — with status hint 500; for the
upload this holds once the `validation_status` argument itself parses as
JSON, since its canonicalization runs before the `try` block and a non-JSON
argument escapes as an untagged `JSONDecodeError`. -/
theorem C9_store_error_tagging
    (minio_client : MinioClient) (minio_bucket object_path file_path crate_id : String)
    (root_path : Option String) (recursive : Bool) (validation_status : String) :
    (download_file_from_minio minio_client minio_bucket object_path file_path = .ok () ∨
      ∃ e, download_file_from_minio minio_client minio_bucket object_path file_path =
        .error e ∧ taggedStoreFailure e) ∧
    ((∃ objs, get_minio_object_list object_path minio_client minio_bucket recursive =
        .ok objs) ∨
      ∃ e, get_minio_object_list object_path minio_client minio_bucket recursive =
        .error e ∧ taggedStoreFailure e) ∧
    ((∃ v, get_validation_status_from_minio minio_client minio_bucket crate_id root_path =
        .ok v) ∨
      ∃ e, get_validation_status_from_minio minio_client minio_bucket crate_id root_path =
        .error e ∧ taggedStoreFailure e) ∧
    ((∃ v, json_loads validation_status = .ok v) →
      (update_validation_status_in_minio minio_client minio_bucket crate_id root_path
          validation_status = .ok () ∨
        ∃ e, update_validation_status_in_minio minio_client minio_bucket crate_id
          root_path validation_status = .error e ∧ taggedStoreFailure e)) := by
  refine ⟨?_, ?_, ?_, ?_⟩
  · unfold download_file_from_minio
    cases minio_client.fget_object minio_bucket object_path file_path with
    | ok u => cases u; exact Or.inl rfl
    | error e => exact Or.inr ⟨_, rfl, tagStoreError_tagged e⟩
  · unfold get_minio_object_list
    cases minio_client.list_objects minio_bucket object_path recursive with
    | ok objs => exact Or.inl ⟨_, rfl⟩
    | error e => exact Or.inr ⟨_, rfl, tagStoreError_tagged e⟩
  · unfold get_validation_status_from_minio
    dsimp only
    cases hg : minio_client.get_object minio_bucket
        (get_validation_object_name root_path crate_id) with
    | error e => exact Or.inr ⟨_, rfl, tagStoreError_tagged e⟩
    | ok data =>
      cases hj : json_loads data with
      | error m =>
        refine Or.inr ⟨tagStoreError (.jsonDecodeError m), ?_, tagStoreError_tagged _⟩
        simp [hj]
      | ok v =>
        refine Or.inl ⟨v, ?_⟩
        simp [hj]
  · rintro ⟨v, hv⟩
    unfold update_validation_status_in_minio
    dsimp only
    rw [hv]
    cases hp : minio_client.put_object minio_bucket
        (update_validation_object_name root_path crate_id) v with
    | ok u =>
      cases u
      refine Or.inl ?_
      simp [hp]
    | error e =>
      refine Or.inr ⟨tagStoreError e, ?_, tagStoreError_tagged e⟩
      simp [hp]

/-- C9 witness: the tagged-upload branch evaluated with a valid payload and a
client whose `put_object` raises an `S3Error`. -/
theorem C9_store_error_tagging_witness :
    update_validation_status_in_minio
        { trivialMinioClient with put_object := fun _ _ _ => .error (.s3Error "boom") }
        "bucket" "crate1" none "null" = .ok () ∨
    ∃ e, update_validation_status_in_minio
        { trivialMinioClient with put_object := fun _ _ _ => .error (.s3Error "boom") }
        "bucket" "crate1" none "null" = .error e ∧ taggedStoreFailure e :=
  (C9_store_error_tagging
    { trivialMinioClient with put_object := fun _ _ _ => .error (.s3Error "boom") }
    "bucket" "obj" "file" "crate1" none false "null").2.2.2 ⟨JsonVal.null, rfl⟩

/-- A failure payload is among the deliveries of a single webhook send exactly
when the webhook URL is truthy. -/
theorem failure_payload_iff (webhook_url profile_name : Option String) (m : String) :
    (∃ msg, WebhookPayload.failure profile_name msg ∈
      webhook_payloads webhook_url (.failure profile_name m)) ↔
    pyTruthy webhook_url = true := by
  unfold webhook_payloads
  cases h : pyTruthy webhook_url with
  | true => simp
  | false => simp

/-- After a successful fetch, the `finally` cleanup fields of the by-id task
are the same in every subsequent branch: the file removal when the path is a
file, the recursive directory delete when it is a directory. -/
theorem by_id_cleanup_fields
    (fp : FetchedPath) (validate : Engine) (minio_client : MinioClient)
    (app_base_dir minio_bucket crate_id : String)
    (root_path profile_name webhook_url profiles_path : Option String) :
    (process_validation_task_by_id (.ok fp) validate minio_client app_base_dir
        minio_bucket crate_id root_path profile_name webhook_url profiles_path).removedFile
      = (if fp.kind = PathKind.file then some fp.path else none) ∧
    (process_validation_task_by_id (.ok fp) validate minio_client app_base_dir
        minio_bucket crate_id root_path profile_name webhook_url
        profiles_path).removedDirectory
      = (if fp.kind = PathKind.dir then some fp.path else none) := by
  unfold process_validation_task_by_id
  cases hval : perform_ro_crate_validation validate app_base_dir fp.path profile_name
      none profiles_path with
  | error e => simp [hval]
  | ok outcome =>
    cases outcome with
    | inr s => simp [hval]
    | inl validation_result =>
      cases hup : update_validation_status_in_minio minio_client minio_bucket crate_id
          root_path validation_result.to_json with
      | error e => simp [hval, hup]
      | ok u => cases u; simp [hval, hup]

/-- C5: in every run of the by-reference worker task in which a stage
(download, validate, persist) fails, no validation result is persisted and
the failure payload `(profile_name, error)` is delivered to the webhook
exactly when a webhook URL was given; and in every run whatsoever the
temporary path is cleaned up on exit — the file removed or the directory
recursively deleted — gated on its existence. -/
theorem C5_by_id_failure_handling
    (fetchOutcome : Except PyExc FetchedPath) (validate : Engine)
    (minio_client : MinioClient) (app_base_dir minio_bucket crate_id : String)
    (root_path profile_name webhook_url profiles_path : Option String)
    (eff : ByIdEffects)
    (heff : eff = process_validation_task_by_id fetchOutcome validate minio_client
      app_base_dir minio_bucket crate_id root_path profile_name webhook_url profiles_path) :
    (by_id_stage_failed fetchOutcome validate minio_client app_base_dir minio_bucket
        crate_id root_path profile_name profiles_path = true →
      eff.persisted = none ∧
      ((∃ msg, WebhookPayload.failure profile_name msg ∈ eff.webhookSent) ↔
        pyTruthy webhook_url = true)) ∧
    (∀ e, fetchOutcome = .error e →
      eff.removedFile = none ∧ eff.removedDirectory = none) ∧
    (∀ fp, fetchOutcome = .ok fp →
      (fp.kind = PathKind.file →
        eff.removedFile = some fp.path ∧ eff.removedDirectory = none) ∧
      (fp.kind = PathKind.dir →
        eff.removedDirectory = some fp.path ∧ eff.removedFile = none) ∧
      (fp.kind = PathKind.gone →
        eff.removedFile = none ∧ eff.removedDirectory = none)) := by
  subst heff
  refine ⟨?_, ?_, ?_⟩
  · intro hfail
    cases hf : fetchOutcome with
    | error e =>
      constructor
      · simp [process_validation_task_by_id, hf]
      · have h := failure_payload_iff webhook_url profile_name e.str
        simpa [process_validation_task_by_id, hf] using h
    | ok fp =>
      cases hval : perform_ro_crate_validation validate app_base_dir fp.path profile_name
          none profiles_path with
      | error e =>
        constructor
        · simp [process_validation_task_by_id, hf, hval]
        · have h := failure_payload_iff webhook_url profile_name e.str
          simpa [process_validation_task_by_id, hf, hval] using h
      | ok outcome =>
        cases outcome with
        | inr s =>
          constructor
          · simp [process_validation_task_by_id, hf, hval]
          · have h := failure_payload_iff webhook_url profile_name
              ("Validation failed: " ++ s)
            simpa [process_validation_task_by_id, hf, hval] using h
        | inl validation_result =>
          cases hup : update_validation_status_in_minio minio_client minio_bucket crate_id
              root_path validation_result.to_json with
          | error e =>
            constructor
            · simp [process_validation_task_by_id, hf, hval, hup]
            · have h := failure_payload_iff webhook_url profile_name e.str
              simpa [process_validation_task_by_id, hf, hval, hup] using h
          | ok u =>
            cases u
            simp [by_id_stage_failed, hf, hval, hup] at hfail
  · rintro e rfl
    constructor <;> simp [process_validation_task_by_id]
  · rintro fp rfl
    have h := by_id_cleanup_fields fp validate minio_client app_base_dir minio_bucket
      crate_id root_path profile_name webhook_url profiles_path
    refine ⟨?_, ?_, ?_⟩ <;> intro hkind <;> rw [h.1, h.2] <;> simp [hkind]

/-- C5 witness: a run whose download stage fails, with a webhook URL present:
nothing is persisted and the failure payload is delivered. -/
theorem C5_by_id_failure_handling_witness :
    (process_validation_task_by_id (.error (.s3Error "download failed")) failingEngine
        trivialMinioClient "/app" "bucket" "crate1" none (some "profile")
        (some "http://hook") none).persisted = none ∧
    (∃ msg, WebhookPayload.failure (some "profile") msg ∈
      (process_validation_task_by_id (.error (.s3Error "download failed")) failingEngine
        trivialMinioClient "/app" "bucket" "crate1" none (some "profile")
        (some "http://hook") none).webhookSent) := by
  have h := C5_by_id_failure_handling (.error (.s3Error "download failed")) failingEngine
    trivialMinioClient "/app" "bucket" "crate1" none (some "profile") (some "http://hook")
    none _ rfl
  have h1 := h.1 (by rfl)
  exact ⟨h1.1, h1.2.mpr (by rfl)⟩
